import Mathlib

/-!
Verification of the Simcha Manager event application (src/app.py).

The development shallowly embeds the parts of the program that the
properties below speak about:

* the inline field normalization of the review form (src/app.py lines
  134-144): Python `datetime.strptime` with the formats `%Y-%m-%d` and
  `%H:%M` (modelled after CPython's `_strptime` regexes, including the
  1-or-2-digit month/day/hour/minute alternatives and the
  day-of-month/ year-range validation performed by the `datetime`
  constructor), with bare-`except` fallbacks to "today" and 19:00;
* the schedule resolver (event interval plus optional gift-reminder
  interval with the Sabbath-aware Friday backtracking rule);
* the storage layer `load_db` / `save_to_db` (src/app.py lines 26-50),
  with a JSON value model and parser (integers only; floating point
  numbers and string escape sequences are out of scope);
* timestamps and `strftime`-style formatting used for record ids.

Date-times are modelled as minutes since the civil epoch 1970-01-01
(an `Int`), with `toRD` the standard days-from-civil conversion.
-/

namespace Simcha

/-- Decimal digit character for a digit value 0..9 (used to model
Python string formatting of numbers). -/
def digitChar (k : Nat) : Char :=
  match k with
  | 0 => '0'
  | 1 => '1'
  | 2 => '2'
  | 3 => '3'
  | 4 => '4'
  | 5 => '5'
  | 6 => '6'
  | 7 => '7'
  | 8 => '8'
  | 9 => '9'
  | _ => '?'

/-- Numeric value of a decimal digit character. -/
def digitVal (c : Char) : Nat := c.toNat - 48

/-- Decode one digit character (CPython strptime single-digit
alternative). -/
def dec1 (a : Char) : Option Nat :=
  if a.isDigit then some (digitVal a) else none

/-- Decode two digit characters as a two-digit number. -/
def dec2 (a b : Char) : Option Nat :=
  if a.isDigit && b.isDigit then some (10 * digitVal a + digitVal b) else none

/-- Decode four digit characters as a four-digit number (strptime `%Y`
matches exactly four digits). -/
def dec4 (a b c d : Char) : Option Nat :=
  if a.isDigit && b.isDigit && c.isDigit && d.isDigit then
    some (1000 * digitVal a + 100 * digitVal b + 10 * digitVal c + digitVal d)
  else none

/-- Time of day, hour:minute, as produced by `strptime("%H:%M").time()`. -/
structure Time where
  hour : Nat
  min : Nat
deriving DecidableEq

/-- Range check done by the strptime regexes for `%H` and `%M`. -/
def mkTime (h m : Nat) : Option Time :=
  if h ≤ 23 ∧ m ≤ 59 then some ⟨h, m⟩ else none

/-- Shapes accepted for the format string `%H:%M`: one or two digits,
a colon, one or two digits, nothing else. -/
def extractHM : List Char → Option (Nat × Nat)
  | [a, b, ':', c, d] =>
    match dec2 a b, dec2 c d with
    | some h, some m => some (h, m)
    | _, _ => none
  | [a, ':', c, d] =>
    match dec1 a, dec2 c d with
    | some h, some m => some (h, m)
    | _, _ => none
  | [a, b, ':', c] =>
    match dec2 a b, dec1 c with
    | some h, some m => some (h, m)
    | _, _ => none
  | [a, ':', c] =>
    match dec1 a, dec1 c with
    | some h, some m => some (h, m)
    | _, _ => none
  | _ => none

/-- Python `datetime.strptime(s, "%H:%M").time()`, returning `none`
where the Python raises (caught by the form's bare `except`). -/
def strptime_HM (s : String) : Option Time :=
  match extractHM s.toList with
  | some (h, m) => mkTime h m
  | none => none

/-- Gregorian calendar date. -/
structure Date where
  year : Nat
  month : Nat
  day : Nat
deriving DecidableEq

/-- Gregorian leap-year rule (as in Python `calendar.isleap` /
`datetime`). -/
def isLeap (y : Nat) : Bool :=
  (y % 4 == 0) && (y % 100 != 0 || y % 400 == 0)

/-- Length of a month, as validated by the `datetime` constructor. -/
def daysInMonth (y m : Nat) : Nat :=
  if m = 2 then (if isLeap y then 29 else 28)
  else if m = 4 ∨ m = 6 ∨ m = 9 ∨ m = 11 then 30
  else 31

/-- The validity predicate `datetime.date` enforces: year in
MINYEAR..MAXYEAR, month 1..12, day within the month. -/
def ValidDate (d : Date) : Prop :=
  1 ≤ d.year ∧ d.year ≤ 9999 ∧ 1 ≤ d.month ∧ d.month ≤ 12 ∧
    1 ≤ d.day ∧ d.day ≤ daysInMonth d.year d.month

instance (d : Date) : Decidable (ValidDate d) := by
  unfold ValidDate; infer_instance

/-- Construction step of `datetime.strptime("%Y-%m-%d")`: the
`datetime` constructor validates the extracted fields. -/
def mkDate (y m d : Nat) : Option Date :=
  if ValidDate ⟨y, m, d⟩ then some ⟨y, m, d⟩ else none

/-- Shapes accepted for the format string `%Y-%m-%d`: exactly four
digits of year, dash, one or two digits of month, dash, one or two
digits of day, nothing else. -/
def extractYMD : List Char → Option (Nat × Nat × Nat)
  | [a, b, c, d, '-', e, f, '-', g, h] =>
    match dec4 a b c d, dec2 e f, dec2 g h with
    | some y, some m, some dd => some (y, m, dd)
    | _, _, _ => none
  | [a, b, c, d, '-', e, '-', g, h] =>
    match dec4 a b c d, dec1 e, dec2 g h with
    | some y, some m, some dd => some (y, m, dd)
    | _, _, _ => none
  | [a, b, c, d, '-', e, f, '-', g] =>
    match dec4 a b c d, dec2 e f, dec1 g with
    | some y, some m, some dd => some (y, m, dd)
    | _, _, _ => none
  | [a, b, c, d, '-', e, '-', g] =>
    match dec4 a b c d, dec1 e, dec1 g with
    | some y, some m, some dd => some (y, m, dd)
    | _, _, _ => none
  | _ => none

/-- Python `datetime.strptime(s, "%Y-%m-%d")`, returning `none` where
the Python raises (caught by the form's bare `except`). -/
def strptime_Ymd (s : String) : Option Date :=
  match extractYMD s.toList with
  | some (y, m, d) => mkDate y m d
  | none => none

/-- Two-digit zero-padded decimal rendering. -/
def pad2 (n : Nat) : List Char := [digitChar (n / 10), digitChar (n % 10)]

/-- Four-digit zero-padded decimal rendering. -/
def pad4 (n : Nat) : List Char :=
  [digitChar (n / 1000), digitChar (n / 100 % 10), digitChar (n / 10 % 10),
    digitChar (n % 10)]

/-- ISO rendering of a date, `YYYY-MM-DD` (Python
`date.strftime("%Y-%m-%d")`, also `str(date)`). -/
def formatDate (d : Date) : String :=
  ⟨pad4 d.year ++ '-' :: pad2 d.month ++ '-' :: pad2 d.day⟩

/-- Rendering of a time as `HH:MM` — the wire format for times used
throughout the application (the extractor contract and the blank
template both carry times in this form). -/
def formatTime (t : Time) : String :=
  ⟨pad2 t.hour ++ ':' :: pad2 t.min⟩

/-- One value of the raw extraction mapping: the JSON-representable
scalars the extractor boundary can deliver (strings, booleans,
integers, null). Compound values also stringify unparseably, so this
universe is representative for the date/time fallback behaviour. -/
inductive RawVal where
  | str (s : String)
  | bool (b : Bool)
  | int (n : Int)
  | null
deriving DecidableEq

/-- Python `str()` applied to a raw value, as in
`str(data.get('date'))` at src/app.py lines 135 and 141. -/
def pyStr : RawVal → String
  | .str s => s
  | .bool true => "True"
  | .bool false => "False"
  | .int n => toString n
  | .null => "None"

/-- The raw mapping handed to the review form: every key optional and
untyped (src/app.py `st.session_state['simcha_data']`). -/
structure RawData where
  event_type : Option RawVal
  celebrant : Option RawVal
  location : Option RawVal
  date : Option RawVal
  time : Option RawVal
  is_shabbos_event : Option RawVal
deriving DecidableEq

/-- The normalized draft the form produces (src/app.py lines 134-144):
text fields default to the empty string, the date falls back to the
current date, the time to 19:00, the Sabbath flag to `False`. The
flag value is taken by `data.get('is_shabbos_event', False)` and is
passed through without coercion. -/
structure FormState where
  e_type : RawVal
  e_name : RawVal
  e_loc : RawVal
  e_date : Date
  e_time : Time
  is_shabbos : RawVal
deriving DecidableEq

/-- Field normalization of the review form, src/app.py lines 134-144.
`now` is the current date substituted by the `except` branch of the
date parse (`datetime.now()`). -/
def normalize (data : RawData) (now : Date) : FormState :=
  { e_type := data.event_type.getD (.str "")
    e_name := data.celebrant.getD (.str "")
    e_loc := data.location.getD (.str "")
    e_date := (strptime_Ymd (pyStr (data.date.getD .null))).getD now
    e_time := (strptime_HM (pyStr (data.time.getD .null))).getD ⟨19, 0⟩
    is_shabbos := data.is_shabbos_event.getD (.bool false) }

/-- Re-encoding of a normalized draft in the application's own wire
format (dates as `YYYY-MM-DD` strings, times as `HH:MM` strings, as
in the extractor contract at src/app.py line 71 and the blank
template at lines 117-121), used to state idempotence of
normalization. -/
def draftToRaw (fs : FormState) : RawData :=
  { event_type := some fs.e_type
    celebrant := some fs.e_name
    location := some fs.e_loc
    date := some (.str (formatDate fs.e_date))
    time := some (.str (formatTime fs.e_time))
    is_shabbos_event := some fs.is_shabbos }

/-- Days-from-civil conversion (rata die relative to 1970-01-01), the
standard algorithm; positive-divisor Euclidean division coincides
with floor division. -/
def toRD (d : Date) : Int :=
  let y : Int := if d.month ≤ 2 then (d.year : Int) - 1 else (d.year : Int)
  let era : Int := y / 400
  let yoe : Int := y - era * 400
  let mp : Int := ((d.month : Int) + 9) % 12
  let doy : Int := (153 * mp + 2) / 5 + (d.day : Int) - 1
  let doe : Int := yoe * 365 + yoe / 4 - yoe / 100 + doy
  era * 146097 + doe - 719468

/-- Weekday of a day ordinal, 0 = Monday .. 6 = Sunday (Python
`date.weekday()` convention; 1970-01-01 was a Thursday). -/
def weekdayRD (r : Int) : Int := (r + 3) % 7

/-- Modelled from the spec: the Sabbath-aware backtracking rule of the
Schedule Resolver, which is not present in the provided source file.
The reminder day for a Sabbath event is computed as
`draft.date - days(weekday(draft.date) - 4)`, and if that lands
strictly after the event date, 7 days are subtracted. -/
def giftRD (rd : Int) : Int :=
  let w := weekdayRD rd
  let c := rd - (w - 4)
  if rd < c then c - 7 else c

/-- Minutes-of-day of a time value. -/
def timeMinutes (t : Time) : Int := 60 * (t.hour : Int) + (t.min : Int)

/-- Python `datetime.combine(date, time)` in the minutes-since-epoch
model (src/app.py line 163). -/
def combine (d : Date) (t : Time) : Int := 1440 * toRD d + timeMinutes t

/-- Day ordinal a minutes-since-epoch date-time falls on. -/
def dayOf (dt : Int) : Int := dt / 1440

/-- Minute of day of a minutes-since-epoch date-time. -/
def minuteOf (dt : Int) : Int := dt % 1440

/-- Event duration constant: `timedelta(hours=3)` at src/app.py
line 164 (the spec's configurable duration constant, default 3
hours), in minutes. -/
def fixed_duration_minutes : Int := 180

/-- Attendance decision offered by the form (src/app.py line 148). -/
inductive Attending where
  | yes
  | maybe
  | no
deriving DecidableEq

/-- A resolved calendar interval: title, start and end instants
(minutes since epoch, `stop` standing for the spec's `end` field),
location and details. -/
structure CalendarInterval where
  title : String
  start : Int
  stop : Int
  location : String
  details : String
deriving DecidableEq

/-- The normalized, confirmed draft consumed by the Schedule Resolver
(spec data model; the date and time are the form's normalized values
and the Sabbath flag is the checkbox value). -/
structure EventDraft where
  event_type : String
  celebrant : String
  location : String
  date : Date
  time : Time
  is_sabbath_event : Bool
deriving DecidableEq

/-- The event interval: start = `datetime.combine(e_date, e_time)`,
end = start + `timedelta(hours=3)`, title `e_type ++ ": " ++ e_name`
(src/app.py lines 154, 163-165). -/
def eventInterval (draft : EventDraft) : CalendarInterval :=
  ⟨draft.event_type ++ ": " ++ draft.celebrant,
    combine draft.date draft.time,
    combine draft.date draft.time + fixed_duration_minutes,
    draft.location, "Simcha Manager"⟩

/-- Modelled from the spec: the day the gift reminder falls on — the
Sabbath backtracking rule for Sabbath events, otherwise the day
before the event. -/
def giftDayRD (draft : EventDraft) : Int :=
  if draft.is_sabbath_event then giftRD (toRD draft.date)
  else toRD draft.date - 1

/-- Modelled from the spec: the gift-reminder interval, 10:00 for 30
minutes on the reminder day. -/
def giftInterval (draft : EventDraft) : CalendarInterval :=
  ⟨"Buy Gift: " ++ draft.celebrant, 1440 * giftDayRD draft + 600,
    1440 * giftDayRD draft + 600 + 30, "Local Store",
    "Buy a gift before the simcha"⟩

/-- Modelled from the spec: the Schedule Resolver. The attendance
gate, the gift-reminder interval and the Sabbath rule are absent from
the provided source file (the submitted block at src/app.py lines
152-166 belongs to a revision without them); the event-interval
arithmetic follows the source (src/app.py lines 154, 163-165). -/
def resolve (draft : EventDraft) (attending : Attending) (want_gift : Bool) :
    List CalendarInterval :=
  if attending = .no then []
  else if want_gift then [eventInterval draft, giftInterval draft]
  else [eventInterval draft]

/-- Concrete raw mapping with an unparseable date (an integer) and an
unparseable time. -/
def rawBad : RawData :=
  ⟨some (.str "Bris"), some (.str "Rivka"), none, some (.int 20250314),
    some (.str "7 pm"), none⟩

/-- Concrete raw mapping whose Sabbath flag is a non-boolean
(a string). -/
def rawShabbosStr : RawData :=
  ⟨none, none, none, some (.str "2025-03-15"), some (.str "10:00"),
    some (.str "yes")⟩

/-- Concrete well-formed raw mapping. -/
def rawGood : RawData :=
  ⟨some (.str "Wedding"), some (.str "Levi"), some (.str "Hall 3"),
    some (.str "2025-03-14"), some (.str "18:30"), some (.bool true)⟩

/-- A concrete current date used for fallbacks in witnesses. -/
def today0 : Date := ⟨2025, 10, 12⟩

/-- Another concrete current date. -/
def today1 : Date := ⟨2026, 1, 1⟩

/-- Concrete confirmed draft for a Sabbath event (2025-03-15 was a
Saturday). -/
def draftShabbos : EventDraft :=
  ⟨"Kiddush", "Levi", "Shul", ⟨2025, 3, 15⟩, ⟨10, 0⟩, true⟩

/-- Concrete confirmed draft for a weekday event. -/
def draftPlain : EventDraft :=
  ⟨"Wedding", "Rivka", "Hall 3", ⟨2025, 3, 14⟩, ⟨18, 30⟩, false⟩


/-- JSON values (numbers restricted to integers; the database written
by the application holds only objects, strings and booleans). -/
inductive Json where
  | null
  | bool (b : Bool)
  | num (n : Int)
  | str (s : String)
  | arr (l : List Json)
  | obj (l : List (String × Json))

/-- Skip JSON whitespace. -/
def skipWs : List Char → List Char
  | [] => []
  | c :: cs =>
    if c = ' ' ∨ c = '\t' ∨ c = '\n' ∨ c = '\r' then skipWs cs else c :: cs

/-- Split a leading run of digits off a character list. -/
def scanDigits : List Char → List Char × List Char
  | [] => ([], [])
  | c :: cs =>
    if c.isDigit then
      let p := scanDigits cs
      (c :: p.1, p.2)
    else ([], c :: cs)

/-- Value of a digit string (most significant first). -/
def digitsToNat (l : List Char) : Nat :=
  l.foldl (fun a c => 10 * a + digitVal c) 0

/-- Parse a JSON integer (optional leading minus, digits). -/
def parseNumTail (cs : List Char) : Option (Int × List Char) :=
  match cs with
  | '-' :: rest =>
    match scanDigits rest with
    | ([], _) => none
    | (ds, r) => some (-(digitsToNat ds : Int), r)
  | _ =>
    match scanDigits cs with
    | ([], _) => none
    | (ds, r) => some ((digitsToNat ds : Int), r)

/-- Scan a JSON string body up to the closing quote (escape sequences
out of scope). -/
def scanStr : List Char → Option (List Char × List Char)
  | [] => none
  | c :: cs =>
    if c = '"' then some ([], cs)
    else
      match scanStr cs with
      | some (s, r) => some (c :: s, r)
      | none => none

mutual

/-- Fuel-indexed JSON value parser; `none` models a
`json.JSONDecodeError`. -/
def parseJ : Nat → List Char → Option (Json × List Char)
  | 0, _ => none
  | Nat.succ fuel, cs =>
    match skipWs cs with
    | 'n' :: 'u' :: 'l' :: 'l' :: rest => some (Json.null, rest)
    | 't' :: 'r' :: 'u' :: 'e' :: rest => some (Json.bool true, rest)
    | 'f' :: 'a' :: 'l' :: 's' :: 'e' :: rest => some (Json.bool false, rest)
    | '"' :: rest =>
      match scanStr rest with
      | some (s, r) => some (Json.str ⟨s⟩, r)
      | none => none
    | '[' :: rest =>
      match skipWs rest with
      | ']' :: r => some (Json.arr [], r)
      | cs2 =>
        match parseItems fuel cs2 with
        | some (l, r) => some (Json.arr l, r)
        | none => none
    | '{' :: rest =>
      match skipWs rest with
      | '}' :: r => some (Json.obj [], r)
      | cs2 =>
        match parseFields fuel cs2 with
        | some (l, r) => some (Json.obj l, r)
        | none => none
    | cs1 =>
      match parseNumTail cs1 with
      | some (n, r) => some (Json.num n, r)
      | none => none

/-- Comma-separated array items up to the closing bracket. -/
def parseItems : Nat → List Char → Option (List Json × List Char)
  | 0, _ => none
  | Nat.succ fuel, cs =>
    match parseJ fuel cs with
    | some (v, r) =>
      match skipWs r with
      | ',' :: r2 =>
        match parseItems fuel r2 with
        | some (l, r3) => some (v :: l, r3)
        | none => none
      | ']' :: r2 => some ([v], r2)
      | _ => none
    | none => none

/-- Comma-separated object fields up to the closing brace. -/
def parseFields : Nat → List Char → Option (List (String × Json) × List Char)
  | 0, _ => none
  | Nat.succ fuel, cs =>
    match skipWs cs with
    | '"' :: rest =>
      match scanStr rest with
      | some (k, r) =>
        match skipWs r with
        | ':' :: r2 =>
          match parseJ fuel r2 with
          | some (v, r3) =>
            match skipWs r3 with
            | ',' :: r4 =>
              match parseFields fuel r4 with
              | some (l, r5) => some ((⟨k⟩, v) :: l, r5)
              | none => none
            | '}' :: r4 => some ([(⟨k⟩, v)], r4)
            | _ => none
          | none => none
        | _ => none
      | none => none
    | _ => none

end

/-- Python `json.loads`: parse the whole string, requiring only
whitespace after the value. -/
def jsonParse (s : String) : Option Json :=
  match parseJ (2 * s.length + 2) s.toList with
  | some (v, r) => if skipWs r = [] then some v else none
  | none => none

/-- State of the database file on disk. -/
inductive FileState where
  | missing
  | present (content : String)

/-- The `load_db` function, src/app.py lines 26-36: a missing file, an
empty file and undecodable content all yield the empty list; decodable
content yields the decoded value. -/
def load_db : FileState → Json
  | .missing => .arr []
  | .present c =>
    if c = "" then .arr []
    else
      match jsonParse c with
      | some v => v
      | none => .arr []

/-- A wall-clock instant as `datetime.now()` delivers it, to
microsecond resolution. -/
structure PyDateTime where
  year : Nat
  month : Nat
  day : Nat
  hour : Nat
  minute : Nat
  second : Nat
  micro : Nat
deriving DecidableEq

/-- Python `now.strftime("%Y%m%d%H%M%S")` (src/app.py line 42):
zero-padded, second resolution — the microsecond field is dropped. -/
def fmtTimestamp (t : PyDateTime) : String :=
  ⟨pad4 t.year ++ pad2 t.month ++ pad2 t.day ++ pad2 t.hour ++
    pad2 t.minute ++ pad2 t.second⟩

/-- The record built by the submitted block, src/app.py lines 153-159,
with the id field `save_to_db` assigns at line 42 (`none` before the
save). -/
structure SimchaRecord where
  title : String
  start : String
  location : String
  attending : String
  gift : String
  shabbos : Bool
  id : Option String
deriving DecidableEq

/-- The `save_to_db` function, src/app.py lines 38-50, at the level of
the decoded event list: the new event receives a timestamp-derived id
and is appended to the previously stored events. -/
def save_to_db (events : List SimchaRecord) (new_event : SimchaRecord)
    (now : PyDateTime) : List SimchaRecord :=
  events ++ [{ new_event with id := some (fmtTimestamp now) }]

/-- A wall-clock instant at the start of a second. -/
def ts1 : PyDateTime := ⟨2025, 10, 12, 9, 30, 0, 0⟩

/-- A later wall-clock instant within the same second as `ts1`. -/
def ts2 : PyDateTime := ⟨2025, 10, 12, 9, 30, 0, 500000⟩

/-- A concrete record as built by the submitted block (before save). -/
def recA : SimchaRecord :=
  ⟨"Wedding: Rivka", "2025-03-14T18:30:00", "Hall 3", "Yes", "No", false,
    none⟩

/-- A second concrete record. -/
def recB : SimchaRecord :=
  ⟨"Kiddush: Levi", "2025-03-15T10:00:00", "Shul", "Maybe", "Yes", true,
    none⟩

theorem digitChar_isDigit {k : Nat} (h : k ≤ 9) : (digitChar k).isDigit = true := by
  interval_cases k <;> decide

theorem digitVal_digitChar {k : Nat} (h : k ≤ 9) : digitVal (digitChar k) = k := by
  interval_cases k <;> decide

theorem dec1_digitChar {n : Nat} (h : n ≤ 9) :
    dec1 (digitChar n) = some n := by
  simp [dec1, digitChar_isDigit h, digitVal_digitChar h]

theorem dec2_pad2 {n : Nat} (h : n ≤ 99) :
    dec2 (digitChar (n / 10)) (digitChar (n % 10)) = some n := by
  have h1 : n / 10 ≤ 9 := by omega
  have h2 : n % 10 ≤ 9 := by omega
  simp [dec2, digitChar_isDigit h1, digitChar_isDigit h2,
    digitVal_digitChar h1, digitVal_digitChar h2]
  omega

theorem dec4_pad4 {n : Nat} (h : n ≤ 9999) :
    dec4 (digitChar (n / 1000)) (digitChar (n / 100 % 10))
      (digitChar (n / 10 % 10)) (digitChar (n % 10)) = some n := by
  have h1 : n / 1000 ≤ 9 := by omega
  have h2 : n / 100 % 10 ≤ 9 := by omega
  have h3 : n / 10 % 10 ≤ 9 := by omega
  have h4 : n % 10 ≤ 9 := by omega
  simp [dec4, digitChar_isDigit h1, digitChar_isDigit h2, digitChar_isDigit h3,
    digitChar_isDigit h4, digitVal_digitChar h1, digitVal_digitChar h2,
    digitVal_digitChar h3, digitVal_digitChar h4]
  omega

theorem strptime_Ymd_valid {s : String} {d : Date}
    (h : strptime_Ymd s = some d) : ValidDate d := by
  unfold strptime_Ymd at h
  split at h
  · next y m dd _ =>
    unfold mkDate at h
    split at h
    · next hv => cases h; exact hv
    · cases h
  · cases h

theorem strptime_HM_valid {s : String} {t : Time}
    (h : strptime_HM s = some t) : t.hour ≤ 23 ∧ t.min ≤ 59 := by
  unfold strptime_HM at h
  split at h
  · next hh mm _ =>
    unfold mkTime at h
    split at h
    · next hv => cases h; exact hv
    · cases h
  · cases h

theorem daysInMonth_le (y m : Nat) : daysInMonth y m ≤ 31 := by
  unfold daysInMonth
  split
  · split <;> decide
  · split <;> decide

theorem strptime_Ymd_format {d : Date} (h : ValidDate d) :
    strptime_Ymd (formatDate d) = some d := by
  obtain ⟨h1, h2, h3, h4, h5, h6⟩ := h
  have hm : d.month ≤ 99 := by omega
  have hd : d.day ≤ 99 := by
    have := daysInMonth_le d.year d.month
    omega
  have hlist : (formatDate d).toList =
      [digitChar (d.year / 1000), digitChar (d.year / 100 % 10),
        digitChar (d.year / 10 % 10), digitChar (d.year % 10), '-',
        digitChar (d.month / 10), digitChar (d.month % 10), '-',
        digitChar (d.day / 10), digitChar (d.day % 10)] := rfl
  unfold strptime_Ymd
  rw [hlist]
  simp only [extractYMD, dec4_pad4 h2, dec2_pad2 hm, dec2_pad2 hd]
  unfold mkDate
  rw [if_pos ⟨h1, h2, h3, h4, h5, h6⟩]

theorem strptime_HM_format {t : Time} (hh : t.hour ≤ 23) (hm : t.min ≤ 59) :
    strptime_HM (formatTime t) = some t := by
  have h1 : t.hour ≤ 99 := by omega
  have h2 : t.min ≤ 99 := by omega
  have hlist : (formatTime t).toList =
      [digitChar (t.hour / 10), digitChar (t.hour % 10), ':',
        digitChar (t.min / 10), digitChar (t.min % 10)] := rfl
  unfold strptime_HM
  rw [hlist]
  simp only [extractHM, dec2_pad2 h1, dec2_pad2 h2]
  unfold mkTime
  rw [if_pos ⟨hh, hm⟩]

theorem giftRD_friday (rd : Int) :
    weekdayRD (giftRD rd) = 4 ∧ giftRD rd ≤ rd ∧ rd - giftRD rd ≤ 6 := by
  simp only [giftRD, weekdayRD]
  set w := (rd + 3) % 7 with hw
  split <;> omega

theorem normalize_draftToRaw (fs : FormState) (hd : ValidDate fs.e_date)
    (hh : fs.e_time.hour ≤ 23) (hm : fs.e_time.min ≤ 59) (now' : Date) :
    normalize (draftToRaw fs) now' = fs := by
  simp only [normalize, draftToRaw, Option.getD_some, pyStr]
  rw [strptime_Ymd_format hd, strptime_HM_format hh hm]
  rfl

/-- C1: for every draft with the Sabbath flag set, affirmative
attendance and a gift request, the resolver produces a gift-reminder
interval whose day is a Friday, no later than the event day, and
within 6 days of it. -/
theorem c1_sabbath_gift_on_recent_friday (draft : EventDraft)
    (att : Attending) (hatt : att ≠ .no)
    (hsab : draft.is_sabbath_event = true) :
    ∃ ev gift, resolve draft att true = [ev, gift] ∧
      weekdayRD (dayOf gift.start) = 4 ∧
      dayOf gift.start ≤ toRD draft.date ∧
      toRD draft.date - dayOf gift.start ≤ 6 := by
  have hfri := giftRD_friday (toRD draft.date)
  have hday : dayOf (giftInterval draft).start = giftRD (toRD draft.date) := by
    simp [giftInterval, giftDayRD, hsab, dayOf]
    omega
  refine ⟨eventInterval draft, giftInterval draft, by simp [resolve, hatt],
    ?_, ?_, ?_⟩
  · rw [hday]; exact hfri.1
  · rw [hday]; exact hfri.2.1
  · rw [hday]; exact hfri.2.2

/-- C1 witness: the theorem applied to the Sabbath draft for Saturday
2025-03-15 with attendance Maybe. -/
theorem c1_witness :
    (Attending.maybe ≠ Attending.no) ∧ (draftShabbos.is_sabbath_event = true) ∧
    (∃ ev gift, resolve draftShabbos .maybe true = [ev, gift] ∧
      weekdayRD (dayOf gift.start) = 4 ∧
      dayOf gift.start ≤ toRD draftShabbos.date ∧
      toRD draftShabbos.date - dayOf gift.start ≤ 6) :=
  ⟨by decide, rfl, c1_sabbath_gift_on_recent_friday draftShabbos .maybe
    (by decide) rfl⟩

/-- C2: resolving any draft with attendance No yields no calendar
intervals at all, whatever the gift flag. -/
theorem c2_declined_yields_no_intervals (draft : EventDraft)
    (want_gift : Bool) : resolve draft .no want_gift = [] := rfl

/-- C3: for every non-Sabbath draft with affirmative attendance and a
gift request, the gift interval falls on the day before the event,
starts at 10:00 (minute 600 of the day) and lasts 30 minutes. -/
theorem c3_plain_gift_day_before (draft : EventDraft) (att : Attending)
    (hatt : att ≠ .no) (hsab : draft.is_sabbath_event = false) :
    ∃ ev gift, resolve draft att true = [ev, gift] ∧
      dayOf gift.start = toRD draft.date - 1 ∧
      minuteOf gift.start = 600 ∧
      gift.stop - gift.start = 30 := by
  refine ⟨eventInterval draft, giftInterval draft, by simp [resolve, hatt],
    ?_, ?_, ?_⟩
  · simp [giftInterval, giftDayRD, hsab, dayOf]
    omega
  · simp [giftInterval, giftDayRD, hsab, minuteOf]
    omega
  · simp only [giftInterval]
    omega

/-- C3 witness: the theorem applied to the weekday draft for
2025-03-14 with attendance Yes. -/
theorem c3_witness :
    (Attending.yes ≠ Attending.no) ∧ (draftPlain.is_sabbath_event = false) ∧
    (∃ ev gift, resolve draftPlain .yes true = [ev, gift] ∧
      dayOf gift.start = toRD draftPlain.date - 1 ∧
      minuteOf gift.start = 600 ∧
      gift.stop - gift.start = 30) :=
  ⟨by decide, rfl, c3_plain_gift_day_before draftPlain .yes (by decide) rfl⟩

/-- C4: with affirmative attendance and no gift request, resolution
yields exactly the event interval, whose start combines the draft's
date and time, whose end is start plus the fixed 3-hour duration, and
whose title joins event type and celebrant. -/
theorem c4_no_gift_single_event_interval (draft : EventDraft)
    (att : Attending) (hatt : att ≠ .no) :
    resolve draft att false = [eventInterval draft] ∧
    (eventInterval draft).start = combine draft.date draft.time ∧
    (eventInterval draft).stop =
      combine draft.date draft.time + fixed_duration_minutes ∧
    (eventInterval draft).title =
      draft.event_type ++ ": " ++ draft.celebrant :=
  ⟨by simp [resolve, hatt], rfl, rfl, rfl⟩

/-- C4 witness: the theorem applied to the weekday draft with
attendance Yes. -/
theorem c4_witness :
    (Attending.yes ≠ Attending.no) ∧
    (resolve draftPlain .yes false = [eventInterval draftPlain] ∧
    (eventInterval draftPlain).start = combine draftPlain.date draftPlain.time ∧
    (eventInterval draftPlain).stop =
      combine draftPlain.date draftPlain.time + fixed_duration_minutes ∧
    (eventInterval draftPlain).title =
      draftPlain.event_type ++ ": " ++ draftPlain.celebrant) :=
  ⟨by decide, c4_no_gift_single_event_interval draftPlain .yes (by decide)⟩

/-- C5: normalization is total and substitutes defaults — a missing or
unparseable raw date yields the current date, a missing or
unparseable raw time yields 19:00. -/
theorem c5_normalize_fallback_defaults (raw : RawData) (now : Date) :
    (raw.date = none → (normalize raw now).e_date = now) ∧
    (∀ v, raw.date = some v → strptime_Ymd (pyStr v) = none →
      (normalize raw now).e_date = now) ∧
    (raw.time = none → (normalize raw now).e_time = ⟨19, 0⟩) ∧
    (∀ v, raw.time = some v → strptime_HM (pyStr v) = none →
      (normalize raw now).e_time = ⟨19, 0⟩) := by
  refine ⟨?_, ?_, ?_, ?_⟩
  · intro h
    simp only [normalize, h, Option.getD_none]
    rfl
  · intro v hv hp
    simp only [normalize, hv, Option.getD_some, hp, Option.getD_none]
  · intro h
    simp only [normalize, h, Option.getD_none]
    rfl
  · intro v hv hp
    simp only [normalize, hv, Option.getD_some, hp, Option.getD_none]

/-- C5 witness: the theorem applied to a raw mapping whose date is an
integer and whose time is the string "7 pm". -/
theorem c5_witness :
    (rawBad.date = some (.int 20250314) ∧
      strptime_Ymd (pyStr (.int 20250314)) = none ∧
      (normalize rawBad today0).e_date = today0) ∧
    (rawBad.time = some (.str "7 pm") ∧
      strptime_HM (pyStr (.str "7 pm")) = none ∧
      (normalize rawBad today0).e_time = ⟨19, 0⟩) :=
  ⟨⟨rfl, rfl, (c5_normalize_fallback_defaults rawBad today0).2.1
      (.int 20250314) rfl rfl⟩,
    ⟨rfl, rfl, (c5_normalize_fallback_defaults rawBad today0).2.2.2
      (.str "7 pm") rfl rfl⟩⟩

/-- C6 counterexample: a raw mapping whose Sabbath flag is the
non-boolean string "yes" is not normalized to false — the value is
passed through unchanged, refuting the claim that any non-boolean
flag yields false. -/
theorem c6_counterexample :
    (normalize rawShabbosStr today0).is_shabbos ≠ RawVal.bool false := by
  decide

/-- C6 amended: if the `is_shabbos_event` key is absent the normalized
flag is false; a present value (boolean or not) is passed through
unchanged. -/
theorem c6_amended_flag_passthrough (raw : RawData) (now : Date) :
    (raw.is_shabbos_event = none →
      (normalize raw now).is_shabbos = RawVal.bool false) ∧
    (∀ v, raw.is_shabbos_event = some v →
      (normalize raw now).is_shabbos = v) := by
  constructor
  · intro h
    simp [normalize, h]
  · intro v hv
    simp [normalize, hv]

/-- C6 amended witness: the theorem applied to a mapping without the
flag and to a mapping carrying the string "yes". -/
theorem c6_witness :
    (rawBad.is_shabbos_event = none ∧
      (normalize rawBad today0).is_shabbos = RawVal.bool false) ∧
    (rawShabbosStr.is_shabbos_event = some (.str "yes") ∧
      (normalize rawShabbosStr today0).is_shabbos = .str "yes") :=
  ⟨⟨rfl, (c6_amended_flag_passthrough rawBad today0).1 rfl⟩,
    ⟨rfl, (c6_amended_flag_passthrough rawShabbosStr today0).2
      (.str "yes") rfl⟩⟩

/-- C7: normalization is idempotent — normalizing the wire re-encoding
of a normalized draft returns the identical draft (for any valid
current date, at any later normalization date). -/
theorem c7_normalize_idempotent (raw : RawData) (now now' : Date)
    (hnow : ValidDate now) :
    normalize (draftToRaw (normalize raw now)) now' = normalize raw now := by
  have hd : ValidDate (normalize raw now).e_date := by
    simp only [normalize]
    cases hp : strptime_Ymd (pyStr (raw.date.getD .null)) with
    | some d =>
      rw [Option.getD_some]
      exact strptime_Ymd_valid hp
    | none =>
      rw [Option.getD_none]
      exact hnow
  have ht : (normalize raw now).e_time.hour ≤ 23 ∧
      (normalize raw now).e_time.min ≤ 59 := by
    simp only [normalize]
    cases hp : strptime_HM (pyStr (raw.time.getD .null)) with
    | some t =>
      rw [Option.getD_some]
      exact strptime_HM_valid hp
    | none =>
      rw [Option.getD_none]
      exact ⟨by decide, by decide⟩
  exact normalize_draftToRaw _ hd ht.1 ht.2 now'

/-- C7 witness: the theorem applied to the well-formed raw mapping at
two distinct current dates. -/
theorem c7_witness :
    ValidDate today0 ∧
    normalize (draftToRaw (normalize rawGood today0)) today1 =
      normalize rawGood today0 :=
  ⟨by decide, c7_normalize_idempotent rawGood today0 today1 (by decide)⟩

/-- C8: every calendar interval produced by resolution ends strictly
after it starts. -/
theorem c8_intervals_end_after_start (draft : EventDraft) (att : Attending)
    (want_gift : Bool) (iv : CalendarInterval)
    (hmem : iv ∈ resolve draft att want_gift) : iv.start < iv.stop := by
  unfold resolve at hmem
  split at hmem
  · simp at hmem
  · split at hmem
    · simp only [List.mem_cons, List.mem_singleton, List.not_mem_nil,
        or_false] at hmem
      rcases hmem with h | h <;> subst h
      · simp only [eventInterval, fixed_duration_minutes]
        omega
      · simp only [giftInterval]
        omega
    · simp only [List.mem_singleton] at hmem
      subst hmem
      simp only [eventInterval, fixed_duration_minutes]
      omega

/-- C8 witness: the event interval of the weekday draft is produced by
resolution and ends after it starts. -/
theorem c8_witness :
    (eventInterval draftPlain ∈ resolve draftPlain .yes false) ∧
    (eventInterval draftPlain).start < (eventInterval draftPlain).stop :=
  ⟨by decide, c8_intervals_end_after_start draftPlain .yes false
    (eventInterval draftPlain) (by decide)⟩

/-- C9: the code evaluated at the failing input — two saves within the
same wall-clock second (distinct instants, differing in microseconds)
assign the same timestamp-derived id to both appended records, so the
id is not uniquely assigned. The append-one-record and frame parts of
the save are visible in the computed list. -/
theorem c9_duplicate_timestamp_ids :
    ts1 ≠ ts2 ∧
    save_to_db (save_to_db [] recA ts1) recB ts2 =
      [{ recA with id := some "20251012093000" },
        { recB with id := some "20251012093000" }] := by
  constructor
  · decide
  · decide

/-- C10: loading the persisted event list is total — a missing file,
an empty file and undecodable content all yield the empty list, and a
decodable list is returned as stored. -/
theorem c10_load_db_total (c : String) :
    load_db .missing = .arr [] ∧
    load_db (.present "") = .arr [] ∧
    (jsonParse c = none → load_db (.present c) = .arr []) ∧
    (∀ l, jsonParse c = some (.arr l) → load_db (.present c) = .arr l) := by
  have hpres : ∀ s, load_db (.present s) =
      if s = "" then Json.arr []
      else
        match jsonParse s with
        | some v => v
        | none => Json.arr [] := fun _ => rfl
  refine ⟨rfl, rfl, ?_, ?_⟩
  · intro hp
    by_cases hc : c = ""
    · subst hc
      rfl
    · rw [hpres, if_neg hc, hp]
  · intro l hp
    by_cases hc : c = ""
    · subst hc
      cases hp
    · rw [hpres, if_neg hc, hp]

/-- C10 witness: the theorem applied to undecodable content and to a
stored one-record list. -/
theorem c10_witness :
    (jsonParse "simchos" = none ∧
      load_db (.present "simchos") = .arr []) ∧
    (jsonParse "[true]" = some (.arr [.bool true]) ∧
      load_db (.present "[true]") = .arr [.bool true]) :=
  ⟨⟨rfl, (c10_load_db_total "simchos").2.2.1 rfl⟩,
    ⟨rfl, (c10_load_db_total "[true]").2.2.2 [.bool true] rfl⟩⟩

end Simcha
